import Mathlib

/-!
Shallow embedding of the PokePrice retrieval-augmented chat route
(the revision of the chat route with the empty-context apology branch,
the explicit result count 10 on the similarity search, and the markdown
cleanup step).  The external services (vector store with its embedded
similarity search, and the chat-completion model) are supplied as
deterministic oracles, and every outbound interaction of the handler is
recorded in an event trace so that claims about which upstream calls
happen, and in which order, can be stated and settled.
-/

namespace PokePrice

/-- A retrieved document: text payload plus opaque metadata
(the langchain core document type, as the route consumes it). -/
structure Document where
  pageContent : String
  metadata : List (String × String)
  deriving DecidableEq

/-- One recorded turn of the conversation memory. -/
structure Turn where
  question : String
  answer : String
  deriving DecidableEq

/-- The process-wide conversation buffer, in chronological order. -/
abbrev Memory := List Turn

/-- One observable outbound effect of the handler:
initializing the vector-store client (a connection to the store),
writing the request headers to the log, running the similarity search
(which embeds the query upstream), or invoking the chat completion. -/
inductive Event where
  | vectorStoreInit
  | logHeaders (headers : List (String × String))
  | search (query : String) (k : Nat)
  | chat (prompt : String)
  deriving DecidableEq

/-- The request body as the handler distinguishes it: absent
(route line 77), unparseable JSON (line 88), or a parsed object whose
optional question field is a string.  The falsy test on line 96 treats a
missing field and the empty string alike; it does NOT trim. -/
inductive Body where
  | absent
  | invalidJson
  | json (question : Option String)
  deriving DecidableEq

/-- An inbound request: the value of the authorization header when
present, the remaining headers (they matter only for the log line), and
the body. -/
structure Request where
  authorization : Option String
  otherHeaders : List (String × String)
  body : Body
  deriving DecidableEq

/-- The HTTP response: a 200 with context preview and answer, or an
error status with its message. -/
inductive Response where
  | success (context : List Document) (answer : String)
  | failure (status : Nat) (error : String)
  deriving DecidableEq

/-- The status code of a response. -/
def Response.status : Response → Nat
  | .success _ _ => 200
  | .failure s _ => s

/-- The two upstream services the handler consumes, as deterministic
oracles: the similarity search of the vector store (query text and
result count to ranked documents) and the chat completion (rendered
prompt to raw model output). -/
structure Services where
  similaritySearch : String → Nat → List Document
  chatInvoke : String → String

/-- JS split on a single character, keeping empty segments, as in
authHeader.split(" "). -/
def splitChar (c : Char) : List Char → List (List Char)
  | [] => [[]]
  | x :: xs =>
    let r := splitChar c xs
    if x = c then [] :: r
    else
      match r with
      | [] => [[x]]
      | h :: t => (x :: h) :: t

/-- Route line 54: the second segment of the header split on spaces.
In JS an out-of-range index yields undefined; after the bearer guard a
second segment always exists, so the default never fires. -/
def extractApiKey (authHeader : String) : String :=
  String.mk ((splitChar ' ' authHeader.data).getD 1 [])

/-- Route line 47: the JS startsWith test against the seven characters
of the bearer marker. -/
def startsWithBearer (authHeader : String) : Bool :=
  "Bearer ".data.isPrefixOf authHeader.data

/-- Route lines 166-169: the global replace of the double-asterisk
pattern followed by the global replace of single asterisks removes every
asterisk, and the next replace removes every backtick (character 96);
the composite effect of the three is a character filter. -/
def stripMarkup (l : List Char) : List Char :=
  (l.filter (fun c => c ≠ '*')).filter (fun c => c ≠ Char.ofNat 96)

/-- Scan for the first occurrence of the character c; return the
characters strictly before it and the characters strictly after it.
The regex character classes of the link pattern exclude the terminator,
so the greedy match runs exactly to the first terminator. -/
def splitAtChar (c : Char) : List Char → Option (List Char × List Char)
  | [] => none
  | x :: xs =>
    if x = c then some ([], xs)
    else
      match splitAtChar c xs with
      | none => none
      | some (b, a) => some (x :: b, a)

/-- Route line 170: the global markdown-link replace, label and url to
"label: url", as a left-to-right scan.  At an opening bracket the
scanner tries a full link with non-empty label (no closing bracket
inside) and non-empty url (no closing paren inside); on success it emits
the replacement and resumes after the closing paren, otherwise it keeps
the bracket and resumes one character later, as the JS regex engine
does.  The fuel only bounds recursion; every step consumes at least one
character, so the length of the input suffices. -/
def replaceLinksAux : Nat → List Char → List Char
  | 0, l => l
  | _ + 1, [] => []
  | fuel + 1, x :: xs =>
    if x = '[' then
      match splitAtChar ']' xs with
      | some (label, afterBracket) =>
        if label = [] then x :: replaceLinksAux fuel xs
        else
          match afterBracket with
          | '(' :: rest2 =>
            match splitAtChar ')' rest2 with
            | some (url, afterParen) =>
              if url = [] then x :: replaceLinksAux fuel xs
              else label ++ (':' :: ' ' :: url) ++ replaceLinksAux fuel afterParen
            | none => x :: replaceLinksAux fuel xs
          | _ => x :: replaceLinksAux fuel xs
      | none => x :: replaceLinksAux fuel xs
    else x :: replaceLinksAux fuel xs

/-- The markdown-link replace at full fuel. -/
def replaceLinks (l : List Char) : List Char :=
  replaceLinksAux l.length l

/-- Route lines 166-170: the whole markdown cleanup applied to the raw
model output: strip asterisks and backticks, then rewrite links. -/
def cleanResponse (s : String) : String :=
  String.mk (replaceLinks (stripMarkup s.data))

/-- Route lines 13-23: the fixed prompt template with its three
substitution slots, verbatim including the wording of the final
instruction. -/
def promptTemplate (chat_history context question : String) : String :=
  "You are a helpful assistant that answers questions about Pokemon card prices.\n\nPrevious conversation:\n"
    ++ chat_history
    ++ "\n\nContext information from database:\n"
    ++ context
    ++ "\n\nCurrent question: "
    ++ question
    ++ "\n\nPlease provide a helpful answer based the question the user asked using the context and previous conversation. If you cannot find the information in the context, please say so."

/-- Route line 145: the fixed apology answer for the empty-context
short circuit, verbatim. -/
def apologyAnswer : String :=
  "I apologize, but I couldn\x27t find any relevant information about that in my database. Could you please try rephrasing your question or ask about a different card?"

/-- One serialized turn of the transcript. -/
def turnText (t : Turn) : String :=
  "Human: " ++ t.question ++ "\nAI: " ++ t.answer

/-- Modelled from the spec: the conversation memory component is the
library BufferMemory, whose code is not under src/.  Per the spec the
memory load operation returns the serialized prior transcript as text,
one question/answer pair per turn, in chronological order, and the empty
string when no turns have been recorded. -/
def loadMemoryText (m : Memory) : String :=
  String.intercalate "\n" (m.map turnText)

/-- Modelled from the spec: the memory save operation appends one
question/answer turn at the end of the buffer; it never truncates. -/
def saveContext (m : Memory) (q a : String) : Memory :=
  m ++ [⟨q, a⟩]

/-- Route lines 120-138: the retrieve node calls the similarity search
of the vector store with the question and the explicit result count 10
and stores the returned sequence as the context.  The paired event
records the outbound query. -/
def retrieve (svc : Services) (question : String) : List Document × List Event :=
  (svc.similaritySearch question 10, [Event.search question 10])

/-- The outcome of the generate node: the answer, the memory after the
node, and the outbound events of the node. -/
structure GenResult where
  answer : String
  memory : Memory
  events : List Event
  deriving DecidableEq

/-- Route lines 140-180: the generate node.  Empty context short
circuits to the fixed apology with no completion call and no memory
write; otherwise the document texts are joined with a blank line in
retrieval order, the prompt is rendered with the loaded history, the
chat model is invoked, the raw output is cleaned, and the cleaned
question/answer pair is saved to memory. -/
def generate (svc : Services) (mem : Memory) (question : String)
    (context : List Document) : GenResult :=
  if context.length = 0 then
    { answer := apologyAnswer, memory := mem, events := [] }
  else
    let docsContent := String.intercalate "\n\n" (context.map Document.pageContent)
    let prompt := promptTemplate (loadMemoryText mem) docsContent question
    let cleaned := cleanResponse (svc.chatInvoke prompt)
    { answer := cleaned
      memory := saveContext mem question cleaned
      events := [Event.chat prompt] }

/-- The outcome of one request: the response, the memory after the
request, and the outbound events in order. -/
structure PostResult where
  response : Response
  memory : Memory
  events : List Event
  deriving DecidableEq

/-- Route lines 44-199: the POST handler.  In order: bearer guard
(line 47, status 401); construction of the embedding and chat clients
from the extracted key (lines 54-69, local, no outbound call);
initialization of the vector store (line 62, an outbound connection);
the log line with the full header map (lines 72-75); missing body and
unparseable JSON (lines 77-94, status 400); falsy question (line 96,
status 400 — the empty string only, no trimming); missing environment
variables (lines 104-116, status 500); then the two-node pipeline, and
the 200 response carrying the answer and the first two context
documents (lines 196-199).  The env argument tells which environment
variables are set. -/
def POST (svc : Services) (env : String → Bool) (mem : Memory) (req : Request) :
    PostResult :=
  match req.authorization with
  | none =>
    { response := .failure 401 "Missing or invalid API key", memory := mem, events := [] }
  | some authHeader =>
    if startsWithBearer authHeader = false then
      { response := .failure 401 "Missing or invalid API key", memory := mem, events := [] }
    else
      let ev := [Event.vectorStoreInit,
                 Event.logHeaders (("authorization", authHeader) :: req.otherHeaders)]
      match req.body with
      | .absent =>
        { response := .failure 400 "Request body is required", memory := mem, events := ev }
      | .invalidJson =>
        { response := .failure 400 "Invalid JSON", memory := mem, events := ev }
      | .json q =>
        if q.getD "" = "" then
          { response := .failure 400 "Question is required", memory := mem, events := ev }
        else if (["PG_HOST", "PG_PASSWORD"].filter (fun v => env v = false)) ≠ [] then
          { response := .failure 500 "Configuration Error", memory := mem, events := ev }
        else
          let question := q.getD ""
          let r := retrieve svc question
          let g := generate svc mem question r.1
          { response := .success (r.1.take 2) g.answer
            memory := g.memory
            events := ev ++ r.2 ++ g.events }

/-- The prompt of the first chat-completion event of a trace, if any. -/
def chatPrompt? (events : List Event) : Option String :=
  events.findSome? fun e =>
    match e with
    | .chat p => some p
    | _ => none

/-- Whether an event is a similarity-search call. -/
def isSearchEvent : Event → Bool
  | .search _ _ => true
  | _ => false

/-- Whether an event is an upstream similarity-search or completion
call (the calls the validation gates are meant to run before). -/
def isUpstreamSearchOrChat : Event → Bool
  | .search _ _ => true
  | .chat _ => true
  | _ => false

/-- A concrete service pair whose search always finds one document. -/
def svcHit : Services :=
  { similaritySearch := fun q _ => [{ pageContent := "price data for " ++ q, metadata := [] }]
    chatInvoke := fun _ => "**ans**" }

/-- A concrete service pair whose search never finds a document. -/
def svcMiss : Services :=
  { similaritySearch := fun _ _ => []
    chatInvoke := fun _ => "never used" }

/-- A concrete environment with every variable set. -/
def envAll : String → Bool := fun _ => true

/-- A concrete well-formed request for a given question. -/
def reqOf (q : String) : Request :=
  { authorization := some "Bearer sk-test", otherHeaders := [], body := .json (some q) }

/-- The answer the pipeline produces for a first request with question
q1 against empty memory, when retrieval for q1 is non-empty. -/
def firstAnswer (svc : Services) (q1 : String) : String :=
  cleanResponse (svc.chatInvoke (promptTemplate (loadMemoryText [])
    (String.intercalate "\n\n" ((svc.similaritySearch q1 10).map Document.pageContent)) q1))

/-- The answer the pipeline produces for a second request with question
q2, after a first successful request with question q1, when retrieval
for q2 is non-empty. -/
def secondAnswer (svc : Services) (q1 q2 : String) : String :=
  cleanResponse (svc.chatInvoke (promptTemplate (loadMemoryText [⟨q1, firstAnswer svc q1⟩])
    (String.intercalate "\n\n" ((svc.similaritySearch q2 10).map Document.pageContent)) q2))

/-- The generate node on empty context: fixed apology, memory and trace
untouched. -/
theorem generate_empty (svc : Services) (mem : Memory) (q : String) :
    generate svc mem q [] = { answer := apologyAnswer, memory := mem, events := [] } := rfl

/-- The generate node on non-empty context: render the prompt from the
loaded history and the blank-line join of the document texts, invoke the
chat model, clean the output, append the turn to memory. -/
theorem generate_nonempty (svc : Services) (mem : Memory) (q : String)
    (ctx : List Document) (h : ctx ≠ []) :
    generate svc mem q ctx
      = { answer := cleanResponse (svc.chatInvoke (promptTemplate (loadMemoryText mem)
            (String.intercalate "\n\n" (ctx.map Document.pageContent)) q))
          memory := mem ++ [⟨q, cleanResponse (svc.chatInvoke (promptTemplate (loadMemoryText mem)
            (String.intercalate "\n\n" (ctx.map Document.pageContent)) q))⟩]
          events := [Event.chat (promptTemplate (loadMemoryText mem)
            (String.intercalate "\n\n" (ctx.map Document.pageContent)) q)] } := by
  simp [generate, saveContext, List.length_eq_zero, h]

/-- The handler on a request that passes every validation gate: the
trace is initialization, the header log line, the similarity search
with result count 10, then whatever the generate node emits; the
response carries the first two context documents and the generated
answer. -/
theorem post_valid_eq (svc : Services) (env : String → Bool) (mem : Memory)
    (a q : String) (hdrs : List (String × String))
    (hbear : startsWithBearer a = true)
    (hq : q ≠ "")
    (henv : (["PG_HOST", "PG_PASSWORD"].filter (fun v => env v = false)) = []) :
    POST svc env mem { authorization := some a, otherHeaders := hdrs, body := .json (some q) }
      = { response := .success ((svc.similaritySearch q 10).take 2)
            (generate svc mem q (svc.similaritySearch q 10)).answer
          memory := (generate svc mem q (svc.similaritySearch q 10)).memory
          events := [Event.vectorStoreInit,
                     Event.logHeaders (("authorization", a) :: hdrs),
                     Event.search q 10]
                    ++ (generate svc mem q (svc.similaritySearch q 10)).events } := by
  have h2 := henv
  simp at h2
  simp [POST, retrieve, hbear, hq, h2.1, h2.2]

/-- The generate node never emits a similarity-search event. -/
theorem generate_events_no_search (svc : Services) (mem : Memory) (q : String)
    (ctx : List Document) :
    (generate svc mem q ctx).events.filter isSearchEvent = [] := by
  cases ctx with
  | nil => rfl
  | cons d ds => simp [generate, isSearchEvent]

/-- Serialization of a two-turn transcript: the first turn strictly
before the second. -/
theorem loadMemoryText_two (t1 t2 : Turn) :
    loadMemoryText [t1, t2] = turnText t1 ++ "\n" ++ turnText t2 := rfl

/-- Claim C1, amended: when the question field of a parsed body is
missing or is the empty string — the only cases the falsy test of route
line 96 rejects — the handler answers 400 and neither the similarity
search (hence the embedding) nor the completion call is made; the
vector-store client, however, is initialized before the check, and
whitespace-only questions are not rejected at all (see the
counterexample). -/
theorem C1_empty_question_rejected_before_upstream
    (svc : Services) (env : String → Bool) (mem : Memory)
    (req : Request) (a : String) (q : Option String)
    (hauth : req.authorization = some a)
    (hbear : startsWithBearer a = true)
    (hb : req.body = .json q)
    (hq : q.getD "" = "") :
    (POST svc env mem req).response.status = 400
    ∧ (∀ e ∈ (POST svc env mem req).events, isUpstreamSearchOrChat e = false)
    ∧ Event.vectorStoreInit ∈ (POST svc env mem req).events := by
  rcases req with ⟨auth, hdrs, body⟩
  simp at hauth hb
  subst hauth
  subst hb
  refine ⟨?_, ?_, ?_⟩
  · simp [POST, hbear, hq, Response.status]
  · intro e he
    simp [POST, hbear, hq] at he
    rcases he with h | h <;> subst h <;> rfl
  · simp [POST, hbear, hq]

/-- Claim C1, witness: an empty question with a valid bearer header is
answered 400 with no search and no completion call. -/
theorem C1_empty_question_witness :
    (POST svcHit envAll []
        { authorization := some "Bearer sk-test", otherHeaders := [], body := .json (some "") }).response.status = 400
    ∧ (∀ e ∈ (POST svcHit envAll []
        { authorization := some "Bearer sk-test", otherHeaders := [], body := .json (some "") }).events,
        isUpstreamSearchOrChat e = false)
    ∧ Event.vectorStoreInit ∈ (POST svcHit envAll []
        { authorization := some "Bearer sk-test", otherHeaders := [], body := .json (some "") }).events := by
  exact C1_empty_question_rejected_before_upstream svcHit envAll [] _ "Bearer sk-test" (some "")
    rfl (by decide) rfl rfl

/-- Claim C1, counterexample: a whitespace-only question (a single
space) is truthy in JS, so the handler does not answer 400 — the
request succeeds — and the upstream similarity search is invoked with
the whitespace question. -/
theorem C1_whitespace_question_counterexample :
    (POST svcHit envAll []
        { authorization := some "Bearer sk-test", otherHeaders := [], body := .json (some " ") }).response.status = 200
    ∧ Event.search " " 10 ∈ (POST svcHit envAll []
        { authorization := some "Bearer sk-test", otherHeaders := [], body := .json (some " ") }).events := by
  decide

/-- Claim C2: when retrieval returns the empty document sequence, the
response answer is the fixed apology string (with an empty context
preview) and no chat-completion event ever appears in the trace. -/
theorem C2_empty_retrieval_apology_no_completion
    (svc : Services) (env : String → Bool) (mem : Memory)
    (a q : String) (hdrs : List (String × String))
    (hbear : startsWithBearer a = true) (hq : q ≠ "")
    (henv : (["PG_HOST", "PG_PASSWORD"].filter (fun v => env v = false)) = [])
    (hmiss : svc.similaritySearch q 10 = []) :
    (POST svc env mem { authorization := some a, otherHeaders := hdrs, body := .json (some q) }).response
        = .success [] apologyAnswer
    ∧ ∀ p, Event.chat p ∉
        (POST svc env mem { authorization := some a, otherHeaders := hdrs, body := .json (some q) }).events := by
  rw [post_valid_eq svc env mem a q hdrs hbear hq henv, hmiss]
  constructor
  · rfl
  · intro p
    simp [generate_empty]

/-- Claim C2, witness: a concrete request against an always-empty
vector store gets the apology and no completion call. -/
theorem C2_witness :
    (POST svcMiss envAll []
        { authorization := some "Bearer sk-test", otherHeaders := [], body := .json (some "pikachu") }).response
        = .success [] apologyAnswer
    ∧ ∀ p, Event.chat p ∉
        (POST svcMiss envAll []
          { authorization := some "Bearer sk-test", otherHeaders := [], body := .json (some "pikachu") }).events := by
  exact C2_empty_retrieval_apology_no_completion svcMiss envAll [] "Bearer sk-test" "pikachu" []
    (by decide) (by decide) (by decide) rfl

/-- Claim C3: on a successful request whose retrieval returned the
non-empty sequence docs, the response context is exactly the first
min(length docs, 2) documents of docs, in retrieval order (it is the
two-element truncation, hence an initial segment of docs). -/
theorem C3_context_truncated_to_first_two
    (svc : Services) (env : String → Bool) (mem : Memory)
    (a q : String) (hdrs : List (String × String)) (docs : List Document)
    (hbear : startsWithBearer a = true) (hq : q ≠ "")
    (henv : (["PG_HOST", "PG_PASSWORD"].filter (fun v => env v = false)) = [])
    (hdocs : svc.similaritySearch q 10 = docs) (_hne : docs ≠ []) :
    ∃ ans,
      (POST svc env mem { authorization := some a, otherHeaders := hdrs, body := .json (some q) }).response
          = .success (docs.take 2) ans
      ∧ (docs.take 2).length = min docs.length 2
      ∧ docs.take 2 <+: docs := by
  rw [post_valid_eq svc env mem a q hdrs hbear hq henv, hdocs]
  refine ⟨_, rfl, ?_, ?_⟩
  · rw [List.length_take, Nat.min_comm]
  · exact List.take_prefix 2 docs

/-- Claim C3, witness: with one retrieved document the response context
is exactly that document. -/
theorem C3_witness :
    ∃ ans,
      (POST svcHit envAll []
          { authorization := some "Bearer sk-test", otherHeaders := [], body := .json (some "pikachu") }).response
          = .success (([{ pageContent := "price data for pikachu", metadata := [] }] : List Document).take 2) ans
      ∧ (([{ pageContent := "price data for pikachu", metadata := [] }] : List Document).take 2).length
          = min ([{ pageContent := "price data for pikachu", metadata := [] }] : List Document).length 2
      ∧ ([{ pageContent := "price data for pikachu", metadata := [] }] : List Document).take 2
          <+: [{ pageContent := "price data for pikachu", metadata := [] }] := by
  exact C3_context_truncated_to_first_two svcHit envAll [] "Bearer sk-test" "pikachu" [] _
    (by decide) (by decide) (by decide) rfl (by decide)

/-- Claim C4, counterexample: on the spec input the cleanup step does
NOT produce the output literal the spec states; the link label is
preserved, so the output begins with the label PSA 10, not with the
host text the spec wrote. -/
theorem C4_spec_literal_counterexample :
    cleanResponse "**bold** [PSA 10](https://x.test/card)" ≠ "bold x.test card: https://x.test/card" := by
  decide

/-- Claim C4, amended: on the spec input the cleanup maps the bold
marker away and rewrites the link to the plain label-colon-url form,
giving the output with the label preserved, and the result carries no
residual asterisk, backtick, bracket or paren. -/
theorem C4_cleanup_roundtrip_amended :
    cleanResponse "**bold** [PSA 10](https://x.test/card)" = "bold PSA 10: https://x.test/card"
    ∧ ∀ c ∈ (cleanResponse "**bold** [PSA 10](https://x.test/card)").data,
        c ≠ '*' ∧ c ≠ Char.ofNat 96 ∧ c ≠ '[' ∧ c ≠ ']' ∧ c ≠ '(' ∧ c ≠ ')' := by
  decide

/-- Claim C5: on every request that reaches the pipeline, the trace
contains exactly one similarity-search call, for the question with
result count 10. -/
theorem C5_similarity_search_k10
    (svc : Services) (env : String → Bool) (mem : Memory)
    (a q : String) (hdrs : List (String × String))
    (hbear : startsWithBearer a = true) (hq : q ≠ "")
    (henv : (["PG_HOST", "PG_PASSWORD"].filter (fun v => env v = false)) = []) :
    (POST svc env mem { authorization := some a, otherHeaders := hdrs, body := .json (some q) }).events.filter
        isSearchEvent = [Event.search q 10] := by
  rw [post_valid_eq svc env mem a q hdrs hbear hq henv]
  simp [List.filter_append, generate_events_no_search, isSearchEvent]

/-- Claim C5, witness: the concrete request searches for its question
with result count 10 exactly once. -/
theorem C5_witness :
    (POST svcHit envAll []
        { authorization := some "Bearer sk-test", otherHeaders := [], body := .json (some "pikachu") }).events.filter
        isSearchEvent = [Event.search "pikachu" 10] := by
  exact C5_similarity_search_k10 svcHit envAll [] "Bearer sk-test" "pikachu" []
    (by decide) (by decide) (by decide)

/-- Claim C6, evaluated at the failing input: the handler logs the
whole header map (route lines 72-75), so the bearer credential appears
verbatim, in cleartext, in the log trace of this request — against the
claim that it is never logged in cleartext. -/
theorem C6_credential_logged_in_cleartext :
    Event.logHeaders [("authorization", "Bearer sk-secret-123")] ∈
      (POST svcHit envAll []
        { authorization := some "Bearer sk-secret-123", otherHeaders := [],
          body := .json (some "pikachu") }).events := by
  decide

/-- Claim C7: on the non-empty-context path, the prompt handed to the
chat model is the template rendered with the loaded history, the
blank-line join of the retrieved document texts in retrieval order, and
the question. -/
theorem C7_context_blank_line_join
    (svc : Services) (env : String → Bool) (mem : Memory)
    (a q : String) (hdrs : List (String × String))
    (hbear : startsWithBearer a = true) (hq : q ≠ "")
    (henv : (["PG_HOST", "PG_PASSWORD"].filter (fun v => env v = false)) = [])
    (hne : svc.similaritySearch q 10 ≠ []) :
    chatPrompt? (POST svc env mem
        { authorization := some a, otherHeaders := hdrs, body := .json (some q) }).events
      = some (promptTemplate (loadMemoryText mem)
          (String.intercalate "\n\n" ((svc.similaritySearch q 10).map Document.pageContent)) q) := by
  rw [post_valid_eq svc env mem a q hdrs hbear hq henv,
      generate_nonempty svc mem q _ hne]
  rfl

/-- Claim C7, witness: the concrete chat prompt of a one-document
retrieval. -/
theorem C7_witness :
    chatPrompt? (POST svcHit envAll []
        { authorization := some "Bearer sk-test", otherHeaders := [], body := .json (some "pikachu") }).events
      = some (promptTemplate (loadMemoryText [])
          (String.intercalate "\n\n" ((svcHit.similaritySearch "pikachu" 10).map Document.pageContent))
          "pikachu") := by
  exact C7_context_blank_line_join svcHit envAll [] "Bearer sk-test" "pikachu" []
    (by decide) (by decide) (by decide) (by decide)

/-- Claim C8: after two sequential successful requests with questions
q1 then q2 against initially empty memory, the memory holds exactly the
q1 turn followed by the q2 turn, and the prompt rendered for a third
request carries a history section with the q1 pair strictly before the
q2 pair. -/
theorem C8_memory_chronological_order
    (svc : Services) (q1 q2 q3 : String)
    (h1 : q1 ≠ "") (h2 : q2 ≠ "") (h3 : q3 ≠ "")
    (n1 : svc.similaritySearch q1 10 ≠ [])
    (n2 : svc.similaritySearch q2 10 ≠ [])
    (n3 : svc.similaritySearch q3 10 ≠ []) :
    (POST svc envAll (POST svc envAll [] (reqOf q1)).memory (reqOf q2)).memory
        = [⟨q1, firstAnswer svc q1⟩, ⟨q2, secondAnswer svc q1 q2⟩]
    ∧ chatPrompt? (POST svc envAll
          (POST svc envAll (POST svc envAll [] (reqOf q1)).memory (reqOf q2)).memory
          (reqOf q3)).events
        = some (promptTemplate
            (turnText ⟨q1, firstAnswer svc q1⟩ ++ "\n" ++ turnText ⟨q2, secondAnswer svc q1 q2⟩)
            (String.intercalate "\n\n" ((svc.similaritySearch q3 10).map Document.pageContent))
            q3) := by
  have e1 : (POST svc envAll [] (reqOf q1)).memory = [⟨q1, firstAnswer svc q1⟩] := by
    simp only [reqOf]
    rw [post_valid_eq svc envAll [] _ q1 [] (by decide) h1 (by decide),
        generate_nonempty svc [] q1 _ n1]
    rfl
  have e2 : (POST svc envAll [⟨q1, firstAnswer svc q1⟩] (reqOf q2)).memory
      = [⟨q1, firstAnswer svc q1⟩, ⟨q2, secondAnswer svc q1 q2⟩] := by
    simp only [reqOf]
    rw [post_valid_eq svc envAll _ _ q2 [] (by decide) h2 (by decide),
        generate_nonempty svc _ q2 _ n2]
    rfl
  rw [e1, e2]
  refine ⟨rfl, ?_⟩
  simp only [reqOf]
  rw [post_valid_eq svc envAll _ _ q3 [] (by decide) h3 (by decide),
      generate_nonempty svc _ q3 _ n3, loadMemoryText_two]
  rfl

/-- Claim C8, witness: the two-then-one request sequence at concrete
questions. -/
theorem C8_witness :
    (POST svcHit envAll (POST svcHit envAll [] (reqOf "q one")).memory (reqOf "q two")).memory
        = [⟨"q one", firstAnswer svcHit "q one"⟩, ⟨"q two", secondAnswer svcHit "q one" "q two"⟩]
    ∧ chatPrompt? (POST svcHit envAll
          (POST svcHit envAll (POST svcHit envAll [] (reqOf "q one")).memory (reqOf "q two")).memory
          (reqOf "q three")).events
        = some (promptTemplate
            (turnText ⟨"q one", firstAnswer svcHit "q one"⟩ ++ "\n"
              ++ turnText ⟨"q two", secondAnswer svcHit "q one" "q two"⟩)
            (String.intercalate "\n\n" ((svcHit.similaritySearch "q three" 10).map Document.pageContent))
            "q three") := by
  exact C8_memory_chronological_order svcHit "q one" "q two" "q three"
    (by decide) (by decide) (by decide) (by decide) (by decide) (by decide)

/-- Claim C9: a header value beginning with the seven characters of the
bearer marker never takes the 401 branch (every other branch answers
400, 500 or 200); the exact value Bearer without the trailing space, or
an absent header, answers 401; and for the value consisting of the
marker alone the extracted api key is the empty string. -/
theorem C9_bearer_gate (svc : Services) (env : String → Bool) (mem : Memory) :
    (∀ req a, req.authorization = some a → startsWithBearer a = true →
        (POST svc env mem req).response.status ≠ 401)
    ∧ (∀ hdrs body, (POST svc env mem
        { authorization := some "Bearer", otherHeaders := hdrs, body := body }).response
        = .failure 401 "Missing or invalid API key")
    ∧ (∀ hdrs body, (POST svc env mem
        { authorization := none, otherHeaders := hdrs, body := body }).response
        = .failure 401 "Missing or invalid API key")
    ∧ startsWithBearer "Bearer " = true
    ∧ extractApiKey "Bearer " = "" := by
  refine ⟨?_, ?_, ?_, by decide, by decide⟩
  · intro req a hauth hb
    rcases req with ⟨auth, hdrs, body⟩
    simp at hauth
    subst hauth
    cases body with
    | absent => simp [POST, hb, Response.status]
    | invalidJson => simp [POST, hb, Response.status]
    | json q =>
      simp only [POST, hb, Bool.true_eq_false, if_false]
      split_ifs <;> simp [Response.status]
  · intro hdrs body
    have hb : startsWithBearer "Bearer" = false := by decide
    simp [POST, hb]
  · intro hdrs body
    simp [POST]

/-- Claim C9, witness: the bare marker with trailing space passes the
gate (the request is not answered 401) even though the extracted key is
empty. -/
theorem C9_bearer_gate_witness :
    (POST svcHit envAll []
        { authorization := some "Bearer ", otherHeaders := [], body := .json (some "x") }).response.status ≠ 401 := by
  exact (C9_bearer_gate svcHit envAll []).1 _ "Bearer " rfl (by decide)

/-- Claim C10: on the empty-context apology path the conversation
memory after the request equals the memory before it — the apology turn
is never saved, so it cannot appear in the history of any later
prompt. -/
theorem C10_apology_path_memory_unchanged
    (svc : Services) (env : String → Bool) (mem : Memory)
    (a q : String) (hdrs : List (String × String))
    (hbear : startsWithBearer a = true) (hq : q ≠ "")
    (henv : (["PG_HOST", "PG_PASSWORD"].filter (fun v => env v = false)) = [])
    (hmiss : svc.similaritySearch q 10 = []) :
    (POST svc env mem
        { authorization := some a, otherHeaders := hdrs, body := .json (some q) }).memory = mem := by
  rw [post_valid_eq svc env mem a q hdrs hbear hq henv, hmiss]
  rfl

/-- Claim C10, witness: an apology-path request leaves a one-turn
memory exactly as it was. -/
theorem C10_witness :
    (POST svcMiss envAll [⟨"earlier q", "earlier a"⟩]
        { authorization := some "Bearer sk-test", otherHeaders := [], body := .json (some "pikachu") }).memory
      = [⟨"earlier q", "earlier a"⟩] := by
  exact C10_apology_path_memory_unchanged svcMiss envAll [⟨"earlier q", "earlier a"⟩]
    "Bearer sk-test" "pikachu" [] (by decide) (by decide) (by decide) rfl

end PokePrice
